import Mathlib

set_option linter.unusedVariables false

/-!
Verification of the fetch-and-store task in `src/main.py`.

The program is a single handler `lambda_handler(event, context)` that
(1) form-encodes the three fields name, password and id, all empty strings,
(2) sends an HTTP POST to a fixed URL with header
`Content-Type: application/x-www-form-urlencoded`,
(3) reads the full response body, (4) writes those bytes to the S3 object
`s3://autocaris-data/inzeraty/inzeraty_usti.xml` with content type
`application/xml`, and (5) returns
`{"statusCode": 200, "body": "XML úspěšně uložen do s3://<bucket>/<key>"}`.

We embed the handler as a pure function over an environment `Env` holding
the two external calls (`urllib.request.urlopen` and `boto3 put_object`),
each of which may fail (an exception in Python is an `Except.error` here;
for `urlopen` this covers both transport failures and the `HTTPError`
raised on non-success HTTP status).  The handler returns the ordered list
of externally observable effects it issued together with its outcome
(normal return value, or the propagated exception).
-/

namespace AutocarisExport

/-- A byte sequence, each byte a `Nat` below 256. -/
abbrev Bytes := List Nat

/-- UTF-8 encoding of a single character (RFC 3629). -/
def utf8EncodeChar (c : Char) : List Nat :=
  let n := c.toNat
  if n < 128 then [n]
  else if n < 2048 then [192 + n / 64, 128 + n % 64]
  else if n < 65536 then [224 + n / 4096, 128 + (n / 64) % 64, 128 + n % 64]
  else [240 + n / 262144, 128 + (n / 4096) % 64, 128 + (n / 64) % 64, 128 + n % 64]

/-- UTF-8 encoding of a string, mirroring Python `str.encode("utf-8")`. -/
def utf8Encode (s : String) : Bytes :=
  (s.data.map utf8EncodeChar).flatten

/-- Upper-case hexadecimal digit, as used by Python percent-encoding. -/
def hexDigit (n : Nat) : Char :=
  if n < 10 then Char.ofNat (48 + n) else Char.ofNat (55 + n)

/-- Characters Python `urllib.parse.quote_plus` leaves unencoded. -/
def isSafeChar (c : Char) : Bool :=
  c.isAlphanum || c = '_' || c = '.' || c = '-' || c = '~'

/-- Percent-encoding of one byte, e.g. `37 ↦ "%25"`. -/
def percentEncodeByte (b : Nat) : String :=
  String.mk ['%', hexDigit (b / 16), hexDigit (b % 16)]

/-- Python `urllib.parse.quote_plus`: safe characters pass through, a space
becomes `+`, every other character is percent-encoded byte-wise via UTF-8. -/
def quote_plus (s : String) : String :=
  String.join (s.data.map fun c =>
    if isSafeChar c then String.mk [c]
    else if c = ' ' then "+"
    else String.join ((utf8EncodeChar c).map percentEncodeByte))

/-- Python `urllib.parse.urlencode` on an ordered list of key/value pairs
(Python dicts preserve insertion order). -/
def urlencode (query : List (String × String)) : String :=
  String.intercalate "&" (query.map fun kv => quote_plus kv.1 ++ "=" ++ quote_plus kv.2)

/-- An outbound HTTP request, as built by `urllib.request.Request` plus
`add_header`; passing `data=` makes the method POST. -/
structure HttpRequest where
  url : String
  method : String
  headers : List (String × String)
  body : Bytes
deriving DecidableEq

/-- One `put_object` call: bucket, key, body bytes and content type. -/
structure S3PutCall where
  bucket : String
  key : String
  body : Bytes
  contentType : String
deriving DecidableEq

/-- An externally observable effect of the handler, in issue order. -/
inductive Effect where
  | httpRequest (req : HttpRequest)
  | s3PutObject (call : S3PutCall)
deriving DecidableEq

/-- A Python value as it appears in the dict returned by the handler. -/
inductive PyVal where
  | int (n : Int)
  | str (s : String)
deriving DecidableEq

/-- A Python dict with string keys, as an ordered association list. -/
abbrev PyDict := List (String × PyVal)

/-- A Python exception that the external calls may raise. -/
inductive PyError where
  | urlError (msg : String)
  | httpError (code : Nat) (msg : String)
  | s3Error (msg : String)
deriving DecidableEq

/-- The two external dependencies of the handler: `urlopen` (returning the
fully read response body, or raising) and S3 `put_object` (or raising). -/
structure Env where
  urlopen : HttpRequest → Except PyError Bytes
  s3put : S3PutCall → Except PyError Unit

/-- Shallow embedding of `lambda_handler` from `src/main.py`: the effect
trace in issue order, paired with the normal return value or the
propagated exception.  `event` and `context` are accepted at arbitrary
types, exactly as the Python accepts and ignores them. -/
def lambda_handler {α β : Type} (event : α) (context : β) (env : Env) :
    List Effect × Except PyError PyDict :=
  let url := "https://www.autocaris.cz/downloadcontent/cars.php"
  let post_data := [("name", ""), ("password", ""), ("id", "")]
  let data_encoded := utf8Encode (urlencode post_data)
  let req : HttpRequest :=
    { url := url, method := "POST",
      headers := [("Content-Type", "application/x-www-form-urlencoded")],
      body := data_encoded }
  match env.urlopen req with
  | .error e => ([Effect.httpRequest req], .error e)
  | .ok xml_data =>
    let bucket_name := "autocaris-data"
    let s3_key := "inzeraty/inzeraty_usti.xml"
    let put : S3PutCall :=
      { bucket := bucket_name, key := s3_key, body := xml_data,
        contentType := "application/xml" }
    match env.s3put put with
    | .error e => ([Effect.httpRequest req, Effect.s3PutObject put], .error e)
    | .ok _ =>
      ([Effect.httpRequest req, Effect.s3PutObject put],
       .ok [("statusCode", PyVal.int 200),
            ("body", PyVal.str ("XML úspěšně uložen do s3://" ++ bucket_name ++ "/" ++ s3_key))])

/-- The fixed upstream URL of the program. -/
def theURL : String := "https://www.autocaris.cz/downloadcontent/cars.php"

/-- The POST fields, in the insertion order of the Python dict. -/
def post_data : List (String × String) := [("name", ""), ("password", ""), ("id", "")]

/-- The encoded POST body. -/
def data_encoded : Bytes := utf8Encode (urlencode post_data)

/-- The one HTTP request the handler builds. -/
def theRequest : HttpRequest :=
  { url := theURL, method := "POST",
    headers := [("Content-Type", "application/x-www-form-urlencoded")],
    body := data_encoded }

/-- The fixed S3 bucket name. -/
def bucket_name : String := "autocaris-data"

/-- The fixed S3 object key. -/
def s3_key : String := "inzeraty/inzeraty_usti.xml"

/-- The `put_object` call issued for response body `b`. -/
def thePutCall (b : Bytes) : S3PutCall :=
  { bucket := bucket_name, key := s3_key, body := b, contentType := "application/xml" }

/-- The dict the handler returns on success. -/
def successDict : PyDict :=
  [("statusCode", PyVal.int 200),
   ("body", PyVal.str ("XML úspěšně uložen do s3://" ++ bucket_name ++ "/" ++ s3_key))]

/-- The HTTP requests occurring in an effect trace, in order. -/
def httpRequests (es : List Effect) : List HttpRequest :=
  es.filterMap fun e =>
    match e with
    | .httpRequest r => some r
    | _ => none

/-- The `put_object` calls occurring in an effect trace, in order. -/
def putCalls (es : List Effect) : List S3PutCall :=
  es.filterMap fun e =>
    match e with
    | .s3PutObject c => some c
    | _ => none

/-- Whether an effect is an HTTP request. -/
def isHttpEffect : Effect → Bool
  | .httpRequest _ => true
  | .s3PutObject _ => false

/-- Whether an effect is an S3 object write. -/
def isPutEffect : Effect → Bool
  | .httpRequest _ => false
  | .s3PutObject _ => true

/-- The state of the object store: contents (body and content type) per
bucket/key address. -/
def S3Store := String × String → Option (Bytes × String)

/-- Effect of one handler effect on the store: an HTTP request changes
nothing, a put fully overwrites the addressed object. -/
def applyEffect (st : S3Store) : Effect → S3Store
  | .httpRequest _ => st
  | .s3PutObject c => fun bk =>
      if bk = (c.bucket, c.key) then some (c.body, c.contentType) else st bk

/-- Run a trace of effects over the store, left to right. -/
def runEffects (st : S3Store) (es : List Effect) : S3Store :=
  es.foldl applyEffect st

/-- `m` occurs contiguously inside `s`. -/
def containsStr (s m : String) : Prop :=
  ∃ l r, s = l ++ m ++ r

/-- An environment whose upstream call succeeds with body `B` and whose
storage write succeeds. -/
def env0 (B : Bytes) : Env :=
  { urlopen := fun _ => .ok B, s3put := fun _ => .ok () }

/-- An environment whose upstream call raises a transport error. -/
def envNetFail : Env :=
  { urlopen := fun _ => .error (PyError.urlError "connection refused"),
    s3put := fun _ => .ok () }

/-- An environment whose upstream call succeeds with an empty body and
whose storage write raises. -/
def envS3Fail : Env :=
  { urlopen := fun _ => .ok [], s3put := fun _ => .error (PyError.s3Error "AccessDenied") }

/-- Unfolding lemma: the run of the handler is determined by the outcomes of the
two external calls, at the fixed request and put call. -/
theorem lambda_handler_run {α β : Type} (event : α) (context : β) (env : Env) :
    lambda_handler event context env =
      match env.urlopen theRequest with
      | .error e => ([Effect.httpRequest theRequest], .error e)
      | .ok b =>
        match env.s3put (thePutCall b) with
        | .error e =>
            ([Effect.httpRequest theRequest, Effect.s3PutObject (thePutCall b)], .error e)
        | .ok _ =>
            ([Effect.httpRequest theRequest, Effect.s3PutObject (thePutCall b)],
             .ok successDict) := rfl

/-- Helper: when the upstream call raises, the run is the lone HTTP request
effect and the propagated error. -/
theorem run_net_error {α β : Type} (event : α) (context : β) (env : Env) (e : PyError)
    (h : env.urlopen theRequest = .error e) :
    lambda_handler event context env = ([Effect.httpRequest theRequest], Except.error e) := by
  rw [lambda_handler_run, h]

/-- Helper: when the upstream call succeeds and the storage write raises,
the run is the HTTP request, one attempted write, and the propagated
error. -/
theorem run_s3_error {α β : Type} (event : α) (context : β) (env : Env) (B : Bytes) (e : PyError)
    (hB : env.urlopen theRequest = .ok B) (hs : env.s3put (thePutCall B) = .error e) :
    lambda_handler event context env =
      ([Effect.httpRequest theRequest, Effect.s3PutObject (thePutCall B)], Except.error e) := by
  simp only [lambda_handler_run, hB, hs]

/-- Helper: when both external calls succeed, the run is the HTTP request,
one write of the response bytes, and the success dict. -/
theorem run_ok {α β : Type} (event : α) (context : β) (env : Env) (B : Bytes)
    (hB : env.urlopen theRequest = .ok B) (hs : env.s3put (thePutCall B) = .ok ()) :
    lambda_handler event context env =
      ([Effect.httpRequest theRequest, Effect.s3PutObject (thePutCall B)],
       Except.ok successDict) := by
  simp only [lambda_handler_run, hB, hs]

/-- Claim C1: for every byte sequence `B` returned as the upstream response
body, the object written to storage by the handler has body exactly `B`,
byte for byte, with no transformation, validation or truncation, for every
possible content of `B` including the empty sequence: the only storage
write of the run is to the fixed destination with body `B` unchanged. -/
theorem c1_passthrough {α β : Type} (event : α) (context : β) (env : Env) (B : Bytes)
    (h : env.urlopen theRequest = .ok B) :
    putCalls (lambda_handler event context env).1 = [thePutCall B] ∧ (thePutCall B).body = B := by
  refine ⟨?_, rfl⟩
  cases hs : env.s3put (thePutCall B) with
  | error e => rw [run_s3_error event context env B e h hs]; exact rfl
  | ok u => rw [run_ok event context env B h hs]; exact rfl

/-- Witness for C1: a concrete run with response body `[60, 120, 62]`
(the bytes of `<x>`). -/
theorem c1_witness :
    putCalls (lambda_handler () () (env0 [60, 120, 62])).1 = [thePutCall [60, 120, 62]] ∧
      (thePutCall [60, 120, 62]).body = [60, 120, 62] :=
  c1_passthrough () () (env0 [60, 120, 62]) [60, 120, 62] rfl

/-- Claim C2: every invocation sends exactly one HTTP request; it is a POST
to `https://www.autocaris.cz/downloadcontent/cars.php` carrying the header
`Content-Type: application/x-www-form-urlencoded`, and its body is exactly
the UTF-8 bytes of the string `name=&password=&id=`, listed explicitly. -/
theorem c2_request_shape {α β : Type} (event : α) (context : β) (env : Env) :
    httpRequests (lambda_handler event context env).1 = [theRequest] ∧
    theRequest.method = "POST" ∧
    theRequest.url = "https://www.autocaris.cz/downloadcontent/cars.php" ∧
    theRequest.headers = [("Content-Type", "application/x-www-form-urlencoded")] ∧
    theRequest.body = utf8Encode "name=&password=&id=" ∧
    utf8Encode "name=&password=&id=" =
      [110, 97, 109, 101, 61, 38, 112, 97, 115, 115, 119, 111, 114, 100, 61, 38, 105, 100, 61] := by
  refine ⟨?_, rfl, rfl, rfl, by decide, by decide⟩
  cases hu : env.urlopen theRequest with
  | error e => rw [run_net_error event context env e hu]; exact rfl
  | ok b =>
    cases hs : env.s3put (thePutCall b) with
    | error e => rw [run_s3_error event context env b e hu hs]; exact rfl
    | ok u => rw [run_ok event context env b hu hs]; exact rfl

/-- Claim C3: for every invocation and invocation input, every storage
write of the run targets bucket `autocaris-data`, key
`inzeraty/inzeraty_usti.xml` and content type `application/xml`; no other
bucket, key or content type is ever used. -/
theorem c3_fixed_destination {α β : Type} (event : α) (context : β) (env : Env) :
    ∀ p ∈ putCalls (lambda_handler event context env).1,
      p.bucket = "autocaris-data" ∧ p.key = "inzeraty/inzeraty_usti.xml" ∧
        p.contentType = "application/xml" := by
  cases hu : env.urlopen theRequest with
  | error e =>
    rw [run_net_error event context env e hu]
    intro p hp
    exact absurd hp (List.not_mem_nil p)
  | ok b =>
    cases hs : env.s3put (thePutCall b) with
    | error e =>
      rw [run_s3_error event context env b e hu hs]
      intro p hp
      have hpb : p = thePutCall b := List.mem_singleton.mp hp
      subst hpb; exact ⟨rfl, rfl, rfl⟩
    | ok u =>
      rw [run_ok event context env b hu hs]
      intro p hp
      have hpb : p = thePutCall b := List.mem_singleton.mp hp
      subst hpb; exact ⟨rfl, rfl, rfl⟩

/-- Witness for C3: the write issued in a concrete run (upstream succeeds
with an empty body, storage raises) has the fixed destination. -/
theorem c3_witness :
    (thePutCall []).bucket = "autocaris-data" ∧ (thePutCall []).key = "inzeraty/inzeraty_usti.xml" ∧
      (thePutCall []).contentType = "application/xml" :=
  c3_fixed_destination () () envS3Fail (thePutCall []) (List.mem_singleton.mpr rfl)

/-- Claim C4: if the upstream call raises (transport failure or non-success
HTTP status, both modelled as `Except.error`), the handler propagates that
error and performs no storage write; if the storage write raises, the
handler propagates that error after exactly one write attempt (no retry);
in either case the outcome is the raised error, not a normal return. -/
theorem c4_failure_propagation {α β : Type} (event : α) (context : β) (env : Env) :
    (∀ err, env.urlopen theRequest = .error err →
      lambda_handler event context env = ([Effect.httpRequest theRequest], .error err)) ∧
    (∀ B err, env.urlopen theRequest = .ok B → env.s3put (thePutCall B) = .error err →
      lambda_handler event context env =
        ([Effect.httpRequest theRequest, Effect.s3PutObject (thePutCall B)], .error err)) :=
  ⟨fun err h => run_net_error event context env err h,
   fun B err hB hs => run_s3_error event context env B err hB hs⟩

/-- Witness for C4: concrete runs for both failure modes. -/
theorem c4_witness :
    lambda_handler () () envNetFail =
      ([Effect.httpRequest theRequest], .error (PyError.urlError "connection refused")) ∧
    lambda_handler () () envS3Fail =
      ([Effect.httpRequest theRequest, Effect.s3PutObject (thePutCall [])],
       .error (PyError.s3Error "AccessDenied")) :=
  ⟨(c4_failure_propagation () () envNetFail).1 _ rfl,
   (c4_failure_propagation () () envS3Fail).2 [] _ rfl rfl⟩

/-- Claim C5: whenever the handler returns normally, the numeric
`statusCode` field of the returned mapping equals 200 and the `body` field
is a string containing both the bucket name `autocaris-data` and the key
`inzeraty/inzeraty_usti.xml` as substrings. -/
theorem c5_result_shape {α β : Type} (event : α) (context : β) (env : Env) (d : PyDict)
    (h : (lambda_handler event context env).2 = .ok d) :
    List.lookup "statusCode" d = some (PyVal.int 200) ∧
    ∃ msg, List.lookup "body" d = some (PyVal.str msg) ∧
      containsStr msg bucket_name ∧ containsStr msg s3_key := by
  cases hu : env.urlopen theRequest with
  | error e =>
    rw [run_net_error event context env e hu] at h
    exact Except.noConfusion h
  | ok b =>
    cases hs : env.s3put (thePutCall b) with
    | error e =>
      rw [run_s3_error event context env b e hu hs] at h
      exact Except.noConfusion h
    | ok u =>
      cases u
      rw [run_ok event context env b hu hs] at h
      have hd : d = successDict := (Except.ok.inj h).symm
      subst hd
      refine ⟨rfl, "XML úspěšně uložen do s3://" ++ bucket_name ++ "/" ++ s3_key, rfl, ?_, ?_⟩
      · exact ⟨"XML úspěšně uložen do s3://", "/inzeraty/inzeraty_usti.xml", by decide⟩
      · exact ⟨"XML úspěšně uložen do s3://autocaris-data/", "", by decide⟩

/-- Witness for C5: the returned dict of a concrete successful run. -/
theorem c5_witness :
    List.lookup "statusCode" successDict = some (PyVal.int 200) ∧
    ∃ msg, List.lookup "body" successDict = some (PyVal.str msg) ∧
      containsStr msg bucket_name ∧ containsStr msg s3_key :=
  c5_result_shape () () (env0 [1]) successDict rfl

/-- Claim C6: two invocations differing only in the `event` and `context`
arguments (at any types) but facing the same external environment have
identical effect traces and identical outcomes: the HTTP request sent, the
object written and the returned result do not depend on them. -/
theorem c6_event_context_irrelevant {α β γ δ : Type} (ev : α) (cx : β) (ev2 : γ) (cx2 : δ)
    (env : Env) :
    lambda_handler ev cx env = lambda_handler ev2 cx2 env := rfl

/-- Claim C7: invoking the handler twice in succession, with upstream
responses `B1` then `B2` and both writes succeeding, leaves the storage
object at the fixed key with body exactly `B2` and content type
`application/xml`: the second write fully overwrites the first,
last-write-wins, from any starting store. -/
theorem c7_last_write_wins (st : S3Store) (envA envB : Env) (B1 B2 : Bytes)
    (h1 : envA.urlopen theRequest = .ok B1) (h1w : envA.s3put (thePutCall B1) = .ok ())
    (h2 : envB.urlopen theRequest = .ok B2) (h2w : envB.s3put (thePutCall B2) = .ok ()) :
    runEffects (runEffects st (lambda_handler () () envA).1) (lambda_handler () () envB).1
      (bucket_name, s3_key) = some (B2, "application/xml") := by
  rw [run_ok () () envA B1 h1 h1w, run_ok () () envB B2 h2 h2w]
  simp [runEffects, applyEffect, thePutCall]

/-- Witness for C7: two concrete runs with bodies `[1]` then `[2]` over the
empty store leave `[2]` at the fixed key. -/
theorem c7_witness :
    runEffects (runEffects (fun _ => none) (lambda_handler () () (env0 [1])).1)
        (lambda_handler () () (env0 [2])).1 (bucket_name, s3_key) =
      some ([2], "application/xml") :=
  c7_last_write_wins (fun _ => none) (env0 [1]) (env0 [2]) [1] [2] rfl rfl rfl rfl

/-- Counterexample to C8 as stated: when the upstream call raises, the
invocation performs one externally observable effect, not two, and no
storage write at all, so it is not the case that each invocation performs
exactly two effects of which one is a storage write. -/
theorem c8_counterexample :
    (lambda_handler () () envNetFail).1.length ≠ 2 ∧
    putCalls (lambda_handler () () envNetFail).1 = [] := by decide

/-- Claim C8 (amended): each invocation performs exactly one outbound HTTP
request and at most one storage write, and nothing else; when the upstream
call succeeds the trace is exactly the request followed by the single
write of the response bytes to the fixed destination, and when the
upstream call raises the trace is exactly the lone request. -/
theorem c8_frame_effects {α β : Type} (event : α) (context : β) (env : Env) :
    (∃ err, env.urlopen theRequest = .error err ∧
        (lambda_handler event context env).1 = [Effect.httpRequest theRequest]) ∨
    (∃ B, env.urlopen theRequest = .ok B ∧
        (lambda_handler event context env).1 =
          [Effect.httpRequest theRequest, Effect.s3PutObject (thePutCall B)]) := by
  cases hu : env.urlopen theRequest with
  | error e =>
    refine Or.inl ⟨e, rfl, ?_⟩
    rw [run_net_error event context env e hu]
  | ok b =>
    refine Or.inr ⟨b, rfl, ?_⟩
    cases hs : env.s3put (thePutCall b) with
    | error e => rw [run_s3_error event context env b e hu hs]
    | ok u => rw [run_ok event context env b hu hs]

/-- Claim C9: within every invocation the operations are strictly ordered:
any storage write in the trace occurs strictly after any HTTP request in
the trace; the write carries the complete response body (so the write is
never issued before the full body has been received); and a normal return
implies the write call completed successfully before the result, with the
trace exactly request-then-write. -/
theorem c9_strict_ordering {α β : Type} (event : α) (context : β) (env : Env) :
    (∀ (i j : Nat) (c : S3PutCall) (r : HttpRequest),
        (lambda_handler event context env).1[i]? = some (Effect.s3PutObject c) →
        (lambda_handler event context env).1[j]? = some (Effect.httpRequest r) → j < i) ∧
    (∀ B, env.urlopen theRequest = .ok B →
        ∀ p ∈ putCalls (lambda_handler event context env).1, p.body = B) ∧
    (∀ d, (lambda_handler event context env).2 = .ok d →
        ∃ B, env.urlopen theRequest = .ok B ∧ env.s3put (thePutCall B) = .ok () ∧
          (lambda_handler event context env).1 =
            [Effect.httpRequest theRequest, Effect.s3PutObject (thePutCall B)]) := by
  cases hu : env.urlopen theRequest with
  | error e =>
    rw [run_net_error event context env e hu]
    refine ⟨?_, ?_, ?_⟩
    · intro i j c r hi hj
      cases i with
      | zero => simp at hi
      | succ n => simp at hi
    · intro B hB
      exact Except.noConfusion hB
    · intro d hd
      exact Except.noConfusion hd
  | ok b =>
    cases hs : env.s3put (thePutCall b) with
    | error e =>
      rw [run_s3_error event context env b e hu hs]
      refine ⟨?_, ?_, ?_⟩
      · intro i j c r hi hj
        cases i with
        | zero => simp at hi
        | succ n =>
          cases j with
          | zero => exact Nat.succ_pos n
          | succ m =>
            cases m with
            | zero => simp at hj
            | succ k => simp at hj
      · intro B hB
        have hbB : b = B := Except.ok.inj hB
        subst hbB
        intro p hp
        have hpb : p = thePutCall b := List.mem_singleton.mp hp
        subst hpb; rfl
      · intro d hd
        exact Except.noConfusion hd
    | ok u =>
      cases u
      rw [run_ok event context env b hu hs]
      refine ⟨?_, ?_, ?_⟩
      · intro i j c r hi hj
        cases i with
        | zero => simp at hi
        | succ n =>
          cases j with
          | zero => exact Nat.succ_pos n
          | succ m =>
            cases m with
            | zero => simp at hj
            | succ k => simp at hj
      · intro B hB
        have hbB : b = B := Except.ok.inj hB
        subst hbB
        intro p hp
        have hpb : p = thePutCall b := List.mem_singleton.mp hp
        subst hpb; rfl
      · intro d hd
        exact ⟨b, rfl, hs, rfl⟩

/-- Witness for C9: in a concrete successful run the write (index 1) comes
after the request (index 0), the written body is the response `[7]`, and
the normal return certifies the completed write. -/
theorem c9_witness :
    (0 : Nat) < 1 ∧ (thePutCall [7]).body = [7] ∧
    (∃ B, (env0 [7]).urlopen theRequest = .ok B ∧ (env0 [7]).s3put (thePutCall B) = .ok () ∧
      (lambda_handler () () (env0 [7])).1 =
        [Effect.httpRequest theRequest, Effect.s3PutObject (thePutCall B)]) :=
  ⟨(c9_strict_ordering () () (env0 [7])).1 1 0 (thePutCall [7]) theRequest rfl rfl,
   (c9_strict_ordering () () (env0 [7])).2.1 [7] rfl (thePutCall [7]) (List.mem_singleton.mpr rfl),
   (c9_strict_ordering () () (env0 [7])).2.2 successDict rfl⟩

/-- Claim C10: on every successful invocation the handler returns the
mapping with exactly the two keys `statusCode` and `body`, where
`statusCode` is the integer 200 and `body` is exactly the constant string
`XML úspěšně uložen do s3://autocaris-data/inzeraty/inzeraty_usti.xml`,
independent of the response payload and of the invocation input. -/
theorem c10_success_return_constant {α β : Type} (event : α) (context : β) (env : Env)
    (d : PyDict) (h : (lambda_handler event context env).2 = .ok d) :
    d = [("statusCode", PyVal.int 200),
         ("body",
          PyVal.str "XML úspěšně uložen do s3://autocaris-data/inzeraty/inzeraty_usti.xml")] := by
  cases hu : env.urlopen theRequest with
  | error e =>
    rw [run_net_error event context env e hu] at h
    exact Except.noConfusion h
  | ok b =>
    cases hs : env.s3put (thePutCall b) with
    | error e =>
      rw [run_s3_error event context env b e hu hs] at h
      exact Except.noConfusion h
    | ok u =>
      cases u
      rw [run_ok event context env b hu hs] at h
      have hd : d = successDict := (Except.ok.inj h).symm
      subst hd
      decide

/-- Witness for C10: the dict of a concrete successful run equals the
constant mapping. -/
theorem c10_witness :
    successDict = [("statusCode", PyVal.int 200),
      ("body",
       PyVal.str "XML úspěšně uložen do s3://autocaris-data/inzeraty/inzeraty_usti.xml")] :=
  c10_success_return_constant () () (env0 []) successDict rfl

end AutocarisExport
